import Mathlib

/-!
Shallow embedding of the core pipeline of `src/api/function_app.py`
(house-flip analyzer): TTL caches, retrying census fetcher, per-tract
scoring, population-weighted aggregation, and market enrichment.

Modelling conventions: Python floats are modelled as exact rationals (ℚ),
Python `int` as ℤ, `None` as `Option.none`.  `round(x, 1)` / `round(x, 2)`
are modelled as exact decimal rounding on ℚ (Python's float tie-breaking
differs only at exact ties, which no claim touches).  Wall-clock instants
are modelled as integer seconds.  Static lookup tables
(`STARBUCKS_RECENT_OPENINGS`, `NEIGHBORHOOD_SCHOOL_RATINGS`, tract→ZIP)
are opaque external data per the spec and enter as precomputed fields.
Insight/warning string generation is not modelled (no claim concerns it).
-/

set_option linter.unusedVariables false

/-- Python `round(x, 1)`: round to one decimal place. -/
def round1 (x : ℚ) : ℚ := ((round (10 * x) : ℤ) : ℚ) / 10

/-- Python `round(x, 2)`: round to two decimal places. -/
def round2 (x : ℚ) : ℚ := ((round (100 * x) : ℤ) : ℚ) / 100

/-- Python `int(x)` applied to a float: truncation toward zero. -/
def pyInt (q : ℚ) : ℤ := if q < 0 then ⌈q⌉ else ⌊q⌋

/-- `clamp01` from function_app.py line 1063: `max(0.0, min(1.0, x))`. -/
def clamp01 (x : ℚ) : ℚ := max 0 (min 1 x)

/-- One tract's raw attributes as consumed by `score_tract_flip_potential`
(function_app.py lines 1506-1512).  `has_starbucks` is the result of the
static-table lookup `has_recent_starbucks(neighborhood, county_name)` and
`school_rating` that of `NEIGHBORHOOD_SCHOOL_RATINGS.get(neighborhood)`;
both tables are opaque data outside the core. -/
structure Tract where
  median_home_value : Option ℤ
  median_income : Option ℤ
  vacancy_pct : Option ℚ
  days_on_market : Option ℤ
  has_starbucks : Bool
  school_rating : Option ℚ
deriving DecidableEq

/-- Gap sub-score as a function of the gap ratio: the `elif` chain of
function_app.py lines 1517-1522 (taken when `mhv > 0`). -/
def gapScore (r : ℚ) : ℚ :=
  if r < 11/10 then 0
  else if r ≤ 8/5 then clamp01 (1 - |r - 27/20| / (1/4))
  else clamp01 (max 0 (1 - (r - 8/5) * (1/2)))

/-- Vacancy sub-score, function_app.py lines 1525-1526. -/
def vacancyScore (v : ℚ) : ℚ :=
  if 8 ≤ v ∧ v ≤ 15 then 1
  else clamp01 (1 - min |v - 8| |v - 15| / 15)

/-- Income sub-score, function_app.py lines 1529-1534. -/
def incomeScore (mhv income : ℚ) : ℚ :=
  if mhv > 0 then
    let ideal_income := mhv / (7/2)
    let r := if ideal_income > 0 then income / ideal_income else 0
    if 4/5 ≤ r ∧ r ≤ 6/5 then 1
    else if r < 4/5 then clamp01 r else clamp01 (2 - r)
  else 0

/-- Velocity sub-score, function_app.py lines 1537-1543. -/
def velocityScore (dom : Option ℤ) : ℚ :=
  match dom with
  | some d =>
    if d > 0 then
      if d < 30 then 1 else if d ≤ 60 then 7/10 else if d ≤ 90 then 2/5 else 1/5
    else 1/2
  | none => 1/2

/-- School bonus tiers, function_app.py lines 1555-1565. -/
def schoolBonus (sr : Option ℚ) : ℚ :=
  match sr with
  | none => 0
  | some s =>
    if s ≥ 8 then 5 else if s ≥ 7 then 3 else if s ≥ 6 then 1
    else if s ≤ 5 then -2 else 0

/-- The numeric fields of the dict returned by `score_tract_flip_potential`
(function_app.py lines 1593-1606). -/
structure ScoreResult where
  score : ℚ
  gap_ratio : ℚ
  gap_score : ℚ
  vacancy_score : ℚ
  income_score : ℚ
  velocity_score : ℚ
  starbucks_bonus : ℚ
  school_bonus : ℚ
deriving DecidableEq

/-- `score_tract_flip_potential`, function_app.py lines 1506-1606.
`price_min` is accepted and unused, exactly as in the source. -/
def score_tract_flip_potential (t : Tract) (price_min price_max : ℤ) : ScoreResult :=
  let mhv : ℚ := ((t.median_home_value.getD 0 : ℤ) : ℚ)
  let income : ℚ := ((t.median_income.getD 0 : ℤ) : ℚ)
  let gap_ratio0 : ℚ := if price_max > 0 then mhv / ((price_max : ℤ) : ℚ) else 0
  let gap_ratio : ℚ := if mhv ≤ 0 then 0 else gap_ratio0
  let gap_score : ℚ := if mhv ≤ 0 then 0 else gapScore gap_ratio0
  let vacancy_score := vacancyScore (t.vacancy_pct.getD 0)
  let income_score := incomeScore mhv income
  let velocity_score := velocityScore t.days_on_market
  let total := (1/2) * gap_score + (1/5) * vacancy_score
    + (1/5) * income_score + (1/10) * velocity_score
  let starbucks_bonus : ℚ := if t.has_starbucks then 3 else 0
  let school_bonus := schoolBonus t.school_rating
  { score := min 100 (round1 (total * 100 + starbucks_bonus + school_bonus))
    gap_ratio := round2 gap_ratio
    gap_score := round1 (gap_score * 100)
    vacancy_score := round1 (vacancy_score * 100)
    income_score := round1 (income_score * 100)
    velocity_score := round1 (velocity_score * 100)
    starbucks_bonus := starbucks_bonus
    school_bonus := school_bonus }

/-- `pop_weighted_avg`, function_app.py lines 1610-1618: fold the list of
(optional value, population weight) pairs into `Σ v·w / Σ w` over the pairs
whose value is known; `None` when the accumulated denominator is zero.
Weights are supplied as integers by every call site (`r.get("total_pop")
or 0`), so the defensive `int(w or 0)` coercion is the identity here. -/
def pop_weighted_avg (values : List (Option ℚ × ℤ)) : Option ℚ :=
  let num : ℚ := (values.map (fun p =>
    match p.1 with | none => 0 | some v => v * ((p.2 : ℤ) : ℚ))).sum
  let den : ℤ := (values.map (fun p =>
    match p.1 with | none => 0 | some _ => p.2)).sum
  if den = 0 then none else some (num / ((den : ℤ) : ℚ))

/-- One scored-tract row as consumed by `aggregate_group` (the dict fields
it reads via `r.get(...)`). -/
structure Row where
  median_home_value : Option ℚ
  median_income : Option ℚ
  vacancy_pct : Option ℚ
  days_on_market : Option ℚ
  gap_ratio : Option ℚ
  score : Option ℚ
  total_pop : Option ℤ
  has_starbucks : Bool
  school_rating : Option ℚ
deriving DecidableEq

/-- The numeric fields of the dict returned by `aggregate_group`
(function_app.py lines 1701-1718).  Note `score` is a plain number: the
source emits `0.0` when the weighted score is absent. -/
structure Aggregate where
  median_home_value : Option ℚ
  median_income : Option ℚ
  vacancy_pct : Option ℚ
  days_on_market : Option ℤ
  gap_ratio : Option ℚ
  total_pop : ℤ
  score : ℚ
  has_starbucks : Bool
  school_rating : Option ℚ
  tracts_count : ℕ
deriving DecidableEq

/-- `aggregate_group`, function_app.py lines 1620-1718 (numeric metrics,
member bookkeeping; insight/warning strings are not modelled). -/
def aggregate_group (rows : List Row) : Aggregate :=
  let total_pop := (rows.map (fun r => r.total_pop.getD 0)).sum
  let med_home_val :=
    pop_weighted_avg (rows.map fun r => (r.median_home_value, r.total_pop.getD 0))
  let med_income :=
    pop_weighted_avg (rows.map fun r => (r.median_income, r.total_pop.getD 0))
  let vac_pct :=
    pop_weighted_avg (rows.map fun r => (r.vacancy_pct, r.total_pop.getD 0))
  let dom_values := (rows.filter (fun r => r.days_on_market.isSome)).map
    (fun r => (r.days_on_market, r.total_pop.getD 0))
  let dom := if dom_values.isEmpty then none else pop_weighted_avg dom_values
  let gap_ratio :=
    pop_weighted_avg (rows.map fun r => (r.gap_ratio, r.total_pop.getD 0))
  let area_score :=
    pop_weighted_avg (rows.map fun r => (r.score, r.total_pop.getD 0))
  let has_starbucks := rows.any (fun r => r.has_starbucks)
  let school_ratings := (rows.map (fun r => r.school_rating)).filterMap id
  let school_rating : Option ℚ :=
    if school_ratings.isEmpty then none
    else some (school_ratings.sum / ((school_ratings.length : ℕ) : ℚ))
  { median_home_value := med_home_val.map round1
    median_income := med_income.map round1
    vacancy_pct := vac_pct.map round1
    days_on_market := dom.map pyInt
    gap_ratio := gap_ratio.map round2
    total_pop := total_pop
    score := match area_score with | none => 0 | some s => round1 s
    has_starbucks := has_starbucks
    school_rating := school_rating.map round1
    tracts_count := rows.length }

/-- One entry of the `_census_cache` dict: the raw dataset plus the
`cached_at` creation instant (seconds). -/
structure CacheEntry where
  data : List (List String)
  cached_at : ℤ
deriving DecidableEq

/-- The `_census_cache` dict, modelled as an association list with unique
keys maintained by replacement on insert. -/
abbrev CensusCache := List (String × CacheEntry)

/-- `CACHE_DURATION_HOURS = 24`, expressed in seconds. -/
def CACHE_DURATION_SECONDS : ℤ := 24 * 3600

def cacheLookup : CensusCache → String → Option CacheEntry
  | [], _ => none
  | (k0, e) :: rest, k => if k0 = k then some e else cacheLookup rest k

/-- `del _census_cache[county_fips]`. -/
def cacheErase (c : CensusCache) (k : String) : CensusCache :=
  c.filter (fun p => p.1 != k)

/-- `get_cached_census_data`, function_app.py lines 1284-1292: lazy
read-time expiry — an entry older than the TTL is deleted and reported
absent. Returns (result, updated cache). -/
def get_cached_census_data (c : CensusCache) (k : String) (now : ℤ) :
    Option (List (List String)) × CensusCache :=
  match cacheLookup c k with
  | none => (none, c)
  | some e =>
    if now - e.cached_at > CACHE_DURATION_SECONDS then (none, cacheErase c k)
    else (some e.data, c)

/-- `cache_census_data`, function_app.py lines 1294-1295: dict assignment,
i.e. full replacement of any previous entry under the key. -/
def cache_census_data (c : CensusCache) (k : String)
    (data : List (List String)) (now : ℤ) : CensusCache :=
  (k, ⟨data, now⟩) :: cacheErase c k

/-- Outcome of one census network attempt.  `ok` is a 2xx response with
its parsed JSON rows; `http503` the retried status; `httpStatusError` any
other non-2xx status (raised by `raise_for_status`, caught as a
`RequestException`); `timeout` / `netError` the two caught exception
classes.  All four non-`ok` outcomes take the transient-failure path. -/
inductive FetchOutcome where
  | ok (data : List (List String))
  | http503
  | httpStatusError
  | timeout
  | netError
deriving DecidableEq

def FetchOutcome.isFailure : FetchOutcome → Bool
  | .ok _ => false
  | _ => true

/-- The `for attempt in range(max_retries)` loop of
`fetch_census_data_with_retry` (function_app.py lines 1308-1332), indexed
by the current attempt number and the number of remaining iterations
(`remaining = max_retries - attempt`, so the source's
`attempt < max_retries - 1` is `0 < rem` at pattern `rem + 1`).
Returns (result, number of network attempts made).  A 2xx response with
fewer than 2 rows returns absence at once; every failure outcome retries
until attempts are exhausted, then yields absence. -/
def census_attempts (oracle : ℕ → FetchOutcome) :
    (attempt : ℕ) → (remaining : ℕ) → Option (List (List String)) × ℕ
  | _, 0 => (none, 0)
  | attempt, rem + 1 =>
    match oracle attempt with
    | .ok data => if data.length < 2 then (none, 1) else (some data, 1)
    | _ =>
      if 0 < rem then
        let r := census_attempts oracle (attempt + 1) rem
        (r.1, r.2 + 1)
      else (none, 1)

/-- `fetch_census_data_with_retry`, function_app.py lines 1297-1333:
cache-first lookup, then up to `max_retries` network attempts, caching a
successful (≥ 2 rows) dataset.  The network is abstracted as an `oracle`
from attempt number to outcome.  Returns (result, updated census cache,
number of network attempts made). -/
def fetch_census_data_with_retry (oracle : ℕ → FetchOutcome)
    (c : CensusCache) (county_fips : String) (now : ℤ) (max_retries : ℕ) :
    Option (List (List String)) × CensusCache × ℕ :=
  match get_cached_census_data c county_fips now with
  | (some d, c1) => (some d, c1, 0)
  | (none, c1) =>
    let r := census_attempts oracle 0 max_retries
    match r.1 with
    | some d => (some d, cache_census_data c1 county_fips d now, r.2)
    | none => (none, c1, r.2)

/-- Outcome of one market-listings network call for a ZIP.  `ok` is a 2xx
response carrying, per returned property record, the value of the
`days_on_market or list_days_on_market or dom` extraction (None when no
usable integer field is present).  `httpStatusError` is any other non-2xx
status raised by `raise_for_status`; `netError` any requests exception.
Both are caught by the function's blanket `except`. -/
inductive MarketOutcome where
  | status404
  | status429
  | httpStatusError
  | netError
  | ok (doms : List (Option ℤ))
deriving DecidableEq

/-- The `_dom_cache` dict: ZIP → memoized optional median days-on-market.
Association list with unique keys maintained by replacement on insert. -/
abbrev DomCache := List (String × Option ℤ)

def domLookup : DomCache → String → Option (Option ℤ)
  | [], _ => none
  | (z0, v) :: rest, z => if z0 = z then some v else domLookup rest z

/-- `_dom_cache[zip_code] = v`. -/
def domInsert (c : DomCache) (z : String) (v : Option ℤ) : DomCache :=
  (z, v) :: c.filter (fun p => p.1 != z)

/-- Ascending insertion for `days.sort()`. -/
def insertAsc (x : ℤ) : List ℤ → List ℤ
  | [] => [x]
  | y :: ys => if x ≤ y then x :: y :: ys else y :: insertAsc x ys

/-- `days.sort()`: ascending sort. -/
def sortAsc (l : List ℤ) : List ℤ := l.foldr insertAsc []

/-- `get_market_stats_for_zip`, function_app.py lines 1445-1496.
`cfg_has_api_key` abstracts `RAPIDAPI_KEY and RAPIDAPI_HOST and
RAPIDAPI_TEST_URL`; the network is an oracle from ZIP to outcome.
Returns (median days-on-market, updated `_dom_cache`, whether a network
call was made).  Every failure mode — missing configuration, 404, 429,
any other HTTP status, any network exception, or a response with no
usable `days_on_market` values — memoizes `None` under the ZIP; the
function never raises (the source wraps the whole body in
`try/except Exception`). -/
def get_market_stats_for_zip (cfg_has_api_key : Bool)
    (oracle : String → MarketOutcome) (cache : DomCache) (zip_code : String) :
    Option ℤ × DomCache × Bool :=
  if zip_code = "" then (none, cache, false)
  else
    match domLookup cache zip_code with
    | some v => (v, cache, false)
    | none =>
      if ¬ cfg_has_api_key then (none, domInsert cache zip_code none, false)
      else
        match oracle zip_code with
        | .status404 => (none, domInsert cache zip_code none, true)
        | .status429 => (none, domInsert cache zip_code none, true)
        | .httpStatusError => (none, domInsert cache zip_code none, true)
        | .netError => (none, domInsert cache zip_code none, true)
        | .ok doms =>
          let days := sortAsc ((doms.filterMap id).filter (fun d => 0 ≤ d))
          match days.get? (days.length / 2) with
          | none => (none, domInsert cache zip_code none, true)
          | some m => (some m, domInsert cache zip_code (some m), true)

/-- One neighborhood card as read and written by the market-enrichment
loop of `analyze_neighborhoods` (function_app.py lines 1912-1987).
`member_zip` is the first member tract's `zip_code` field. -/
structure NeighborhoodCard where
  zip_guess : Option String
  member_zip : Option String
  days_on_market : Option ℤ
  gap_ratio : Option ℚ
  vacancy_pct : Option ℚ
  median_home_value : Option ℚ
  median_income : Option ℚ
  has_starbucks : Bool
  score : ℚ
deriving DecidableEq

/-- ZIP resolution at the top of the enrichment loop body (lines
1915-1923): `zip_guess`, else the first member tract's ZIP; a falsy
(empty/missing) ZIP means `continue`. -/
def resolveZip (n : NeighborhoodCard) : Option String :=
  let fromMember :=
    match n.member_zip with
    | some z => if z = "" then none else some z
    | none => none
  match n.zip_guess with
  | some z => if z = "" then fromMember else some z
  | none => fromMember

/-- Mutable state threaded through the enrichment loop: the `_dom_cache`,
the `looked` counter, the `rate_limit_hit` flag, and (for the model) the
trace of ZIPs for which a network call was made. -/
structure EnrichState where
  cache : DomCache
  looked : ℕ
  rate_limit_hit : Bool
  calls : List String
deriving DecidableEq

/-- One iteration of the enrichment `for` loop (lines 1913-1987).  The
source's `try` body only calls total code: `get_market_stats_for_zip`
traps every exception internally (including the 429 path, which merely
memoizes `None`), and the remaining statements are dict reads/writes and
`time.sleep`.  So the `except` handler that would set `rate_limit_hit`
on a message containing "429" can never run, and the flag is left
unchanged by every iteration. -/
def enrich_one (cfg : Bool) (oracle : String → MarketOutcome)
    (st : EnrichState) (n : NeighborhoodCard) : NeighborhoodCard × EnrichState :=
  match resolveZip n with
  | none => (n, st)
  | some z =>
    let r := get_market_stats_for_zip cfg oracle st.cache z
    let st1 : EnrichState :=
      { st with cache := r.2.1, calls := st.calls ++ (if r.2.2 then [z] else []) }
    match r.1 with
    | none => (n, st1)
    | some d =>
      ({ n with days_on_market := some d }, { st1 with looked := st1.looked + 1 })

/-- The enrichment loop over the first `fetch_limit` cards. -/
def enrich_loop (cfg : Bool) (oracle : String → MarketOutcome)
    (st : EnrichState) : List NeighborhoodCard → List NeighborhoodCard × EnrichState
  | [] => ([], st)
  | n :: rest =>
    let r1 := enrich_one cfg oracle st n
    let r2 := enrich_loop cfg oracle r1.2 rest
    (r1.1 :: r2.1, r2.2)

/-- Result of the market-enrichment phase of `analyze_neighborhoods`. -/
structure MarketEnrichResult where
  neighborhoods : List NeighborhoodCard
  dom_cache : DomCache
  errors : List String
  rate_limit_hit : Bool
  network_calls : List String
  looked : ℕ
deriving DecidableEq

/-- The market-enrichment phase of `analyze_neighborhoods`, function_app.py
lines 1905-1991: guarded by the market-data switch, the API key and a
non-empty result list; processes the top
`min(max_market_lookups, len(neighborhoods), 15)` cards; afterwards
appends the single rate-limit warning to `errors` only when
`rate_limit_hit and looked == 0`. -/
def market_enrichment (cfg : Bool) (oracle : String → MarketOutcome)
    (include_market_data : Bool) (max_market_lookups : ℕ) (cache : DomCache)
    (neighborhoods : List NeighborhoodCard) (errors : List String) :
    MarketEnrichResult :=
  if include_market_data && cfg && !neighborhoods.isEmpty then
    let fetch_limit := min (min max_market_lookups neighborhoods.length) 15
    let r := enrich_loop cfg oracle ⟨cache, 0, false, []⟩ (neighborhoods.take fetch_limit)
    let st := r.2
    let errors1 :=
      if st.rate_limit_hit && st.looked == 0 then
        errors ++ ["RapidAPI rate limit exceeded. Market data unavailable."]
      else errors
    { neighborhoods := r.1 ++ neighborhoods.drop fetch_limit
      dom_cache := st.cache
      errors := errors1
      rate_limit_hit := st.rate_limit_hit
      network_calls := st.calls
      looked := st.looked }
  else
    { neighborhoods := neighborhoods, dom_cache := cache, errors := errors
      rate_limit_hit := false, network_calls := [], looked := 0 }

/-- `top_n = max(1, min(int(req.params.get("top", "50")), 50))`,
function_app.py line 1753. -/
def parse_top_n (raw : ℤ) : ℤ := max 1 (min raw 50)

/-- The market-data switch after input processing, function_app.py lines
1760-1768: the requested boolean, auto-disabled when `top_n > 50`. -/
def effective_include_market_data (raw_top : ℤ) (requested : Bool) : Bool :=
  if parse_top_n raw_top > 50 then false else requested

/-- The example tract of the spec's scenario: median home value 260,000
(other attributes absent), scored against price_max = 200,000. -/
def exampleTract : Tract :=
  { median_home_value := some 260000, median_income := none, vacancy_pct := none
    days_on_market := none, has_starbucks := false, school_rating := none }

/-- Spec side of C2: the (value, weight) pairs of `values` whose value is
known. -/
def knownPairs (values : List (Option ℚ × ℤ)) : List (ℚ × ℤ) :=
  values.filterMap (fun p => p.1.map (fun v => (v, p.2)))

/-- Spec side of C2: `Σ (value_i × population_i)` over the known subset. -/
def knownNum (values : List (Option ℚ × ℤ)) : ℚ :=
  ((knownPairs values).map (fun q => q.1 * ((q.2 : ℤ) : ℚ))).sum

/-- Spec side of C2: `Σ population_i` over the known subset. -/
def knownDen (values : List (Option ℚ × ℤ)) : ℤ :=
  ((knownPairs values).map (fun q => q.2)).sum

/-- The (metric value, population weight) pair list `aggregate_group`
hands to `pop_weighted_avg` for one metric. -/
def metricPairs (rows : List Row) (f : Row → Option ℚ) : List (Option ℚ × ℤ) :=
  rows.map fun r => (f r, r.total_pop.getD 0)

/-- A one-row group whose single tract has population 1200 and no known
score (all other metrics also unknown). -/
def rowNoScore : Row :=
  { median_home_value := none, median_income := none, vacancy_pct := none
    days_on_market := none, gap_ratio := none, score := none
    total_pop := some 1200, has_starbucks := false, school_rating := none }

/-- Concrete attempt oracle: 503 on the first attempt, then a two-row
success. -/
def oracle503ThenOk : ℕ → FetchOutcome := fun i =>
  if i = 0 then .http503 else .ok [["NAME"], ["tract1"]]

/-- Concrete attempt oracle: 503 on every attempt. -/
def oracleAll503 : ℕ → FetchOutcome := fun _ => .http503

/-- Concrete attempt oracle: an immediate success with only a header row. -/
def oracleHeaderOnly : ℕ → FetchOutcome := fun _ => .ok [["NAME"]]

/-- Concrete market oracle: 429 for ZIP 46201, success (median 25 days)
elsewhere. -/
def oracle429ThenOk : String → MarketOutcome := fun z =>
  if z = "46201" then .status429 else .ok [some 20, some 25, some 30]

/-- A top-ranked neighborhood card resolving to ZIP 46201. -/
def cardA : NeighborhoodCard :=
  { zip_guess := some "46201", member_zip := none, days_on_market := none
    gap_ratio := some (27/20), vacancy_pct := some 10
    median_home_value := some 150000, median_income := some 50000
    has_starbucks := false, score := 80 }

/-- A second-ranked neighborhood card resolving to ZIP 46202. -/
def cardB : NeighborhoodCard :=
  { zip_guess := some "46202", member_zip := none, days_on_market := none
    gap_ratio := some (6/5), vacancy_pct := some 9
    median_home_value := some 140000, median_income := some 45000
    has_starbucks := false, score := 70 }

/-- Concrete market oracle: definitive 404 for every ZIP. -/
def oracleDom404 : String → MarketOutcome := fun _ => .status404

/-! ## Helper lemmas -/

lemma clamp01_nonneg (x : ℚ) : 0 ≤ clamp01 x := le_max_left 0 _

lemma clamp01_le_one (x : ℚ) : clamp01 x ≤ 1 :=
  max_le (by norm_num) (min_le_left 1 x)

lemma clamp01_mono {x y : ℚ} (h : x ≤ y) : clamp01 x ≤ clamp01 y :=
  max_le_max le_rfl (min_le_min le_rfl h)

lemma round_mono_q {x y : ℚ} (h : x ≤ y) : round x ≤ round y := by
  rw [round_eq, round_eq]
  exact Int.floor_mono (by linarith)

lemma round1_nonneg {x : ℚ} (h : 0 ≤ x) : 0 ≤ round1 x := by
  unfold round1
  have h1 : (0 : ℤ) ≤ round (10 * x) := by
    have h2 := round_mono_q (x := 0) (y := 10 * x) (by linarith)
    simpa using h2
  have h3 : (0 : ℚ) ≤ ((round (10 * x) : ℤ) : ℚ) := by exact_mod_cast h1
  linarith

lemma round1_le_hundred {x : ℚ} (h : x ≤ 100) : round1 x ≤ 100 := by
  unfold round1
  have h1 : round (10 * x) ≤ round (1000 : ℚ) := round_mono_q (by linarith)
  have h2 : round (1000 : ℚ) = 1000 := by
    norm_num [round_eq]
  have h3 : ((round (10 * x) : ℤ) : ℚ) ≤ 1000 := by
    rw [h2] at h1; exact_mod_cast h1
  linarith

lemma gapScore_nonneg (r : ℚ) : 0 ≤ gapScore r := by
  unfold gapScore
  split
  · norm_num
  · split <;> exact clamp01_nonneg _

lemma gapScore_le_one (r : ℚ) : gapScore r ≤ 1 := by
  unfold gapScore
  split
  · norm_num
  · split <;> exact clamp01_le_one _

lemma vacancyScore_nonneg (v : ℚ) : 0 ≤ vacancyScore v := by
  unfold vacancyScore
  split
  · norm_num
  · exact clamp01_nonneg _

lemma vacancyScore_le_one (v : ℚ) : vacancyScore v ≤ 1 := by
  unfold vacancyScore
  split
  · norm_num
  · exact clamp01_le_one _

lemma incomeScore_nonneg (mhv income : ℚ) : 0 ≤ incomeScore mhv income := by
  simp only [incomeScore]
  split_ifs <;> first | exact clamp01_nonneg _ | norm_num

lemma incomeScore_le_one (mhv income : ℚ) : incomeScore mhv income ≤ 1 := by
  simp only [incomeScore]
  split_ifs <;> first | exact clamp01_le_one _ | norm_num

lemma velocityScore_ge (dom : Option ℤ) : 1/5 ≤ velocityScore dom := by
  unfold velocityScore
  cases dom with
  | none => norm_num
  | some d =>
    simp only [velocityScore]
    split_ifs <;> norm_num

lemma velocityScore_le_one (dom : Option ℤ) : velocityScore dom ≤ 1 := by
  unfold velocityScore
  cases dom with
  | none => norm_num
  | some d =>
    simp only [velocityScore]
    split_ifs <;> norm_num

lemma schoolBonus_ge (sr : Option ℚ) : -2 ≤ schoolBonus sr := by
  cases sr with
  | none => norm_num [schoolBonus]
  | some s =>
    simp only [schoolBonus]
    split_ifs <;> norm_num

lemma subdisplay_bounds {s : ℚ} (h0 : 0 ≤ s) (h1 : s ≤ 1) :
    0 ≤ round1 (s * 100) ∧ round1 (s * 100) ≤ 100 :=
  ⟨round1_nonneg (by linarith), round1_le_hundred (by linarith)⟩

lemma composite_bounds {g v i vel sb schb : ℚ} (hg : 0 ≤ g) (hv : 0 ≤ v)
    (hi : 0 ≤ i) (hvel : 1/5 ≤ vel) (hsb : 0 ≤ sb) (hschb : -2 ≤ schb) :
    0 ≤ min 100 (round1 (((1/2) * g + (1/5) * v + (1/5) * i + (1/10) * vel) * 100 + sb + schb)) ∧
    min 100 (round1 (((1/2) * g + (1/5) * v + (1/5) * i + (1/10) * vel) * 100 + sb + schb)) ≤ 100 :=
  ⟨le_min (by norm_num) (round1_nonneg (by linarith)), min_le_left _ _⟩

/-! ## C1 -/

/-- C1: for every tract record and every price band, the composite score
returned by `score_tract_flip_potential` lies in [0, 100] (after bonuses
and penalties), and each of the four displayed sub-scores, scaled to the
0-100 display range, lies in [0, 100]. -/
theorem score_and_subscores_in_range (t : Tract) (price_min price_max : ℤ) :
    (0 ≤ (score_tract_flip_potential t price_min price_max).score ∧
      (score_tract_flip_potential t price_min price_max).score ≤ 100) ∧
    (0 ≤ (score_tract_flip_potential t price_min price_max).gap_score ∧
      (score_tract_flip_potential t price_min price_max).gap_score ≤ 100) ∧
    (0 ≤ (score_tract_flip_potential t price_min price_max).vacancy_score ∧
      (score_tract_flip_potential t price_min price_max).vacancy_score ≤ 100) ∧
    (0 ≤ (score_tract_flip_potential t price_min price_max).income_score ∧
      (score_tract_flip_potential t price_min price_max).income_score ≤ 100) ∧
    (0 ≤ (score_tract_flip_potential t price_min price_max).velocity_score ∧
      (score_tract_flip_potential t price_min price_max).velocity_score ≤ 100) := by
  unfold score_tract_flip_potential
  simp only
  refine ⟨composite_bounds ?_ (vacancyScore_nonneg _) (incomeScore_nonneg _ _)
      (velocityScore_ge _) ?_ (schoolBonus_ge _),
    subdisplay_bounds ?_ ?_,
    subdisplay_bounds (vacancyScore_nonneg _) (vacancyScore_le_one _),
    subdisplay_bounds (incomeScore_nonneg _ _) (incomeScore_le_one _ _),
    subdisplay_bounds (by linarith [velocityScore_ge t.days_on_market]) (velocityScore_le_one _)⟩
  · split
    · norm_num
    · exact gapScore_nonneg _
  · split <;> norm_num
  · split
    · norm_num
    · exact gapScore_nonneg _
  · split
    · norm_num
    · exact gapScore_le_one _

/-! ## C5 -/

lemma gapScore_in_band {r : ℚ} (h1 : 11/10 ≤ r) (h2 : r ≤ 8/5) :
    gapScore r = 1 - |r - 27/20| * 4 := by
  unfold gapScore
  rw [if_neg (not_lt.mpr h1), if_pos h2]
  have habs : |r - 27/20| ≤ 1/4 := abs_le.mpr ⟨by linarith, by linarith⟩
  have h0 : (0 : ℚ) ≤ |r - 27/20| := abs_nonneg _
  have hdiv : |r - 27/20| / (1/4) = |r - 27/20| * 4 := by ring
  rw [hdiv]
  unfold clamp01
  rw [min_eq_right (by linarith), max_eq_right (by linarith)]

lemma gapScore_above_band {r : ℚ} (h : 8/5 < r) :
    gapScore r = clamp01 (max 0 (1 - (r - 8/5) * (1/2))) := by
  unfold gapScore
  rw [if_neg (not_lt.mpr (by linarith)), if_neg (not_le.mpr h)]

/-- C5: the gap sub-score, as a function of the gap ratio, is 0 for every
ratio below 1.1, attains its maximum at ratio 1.35, decreases strictly as
the ratio moves away from 1.35 within [1.1, 1.6], and is monotonically
non-increasing for every ratio above 1.6. -/
theorem gap_score_shape :
    (∀ r : ℚ, r < 11/10 → gapScore r = 0) ∧
    (gapScore (27/20) = 1 ∧ ∀ r : ℚ, gapScore r ≤ 1) ∧
    (∀ r1 r2 : ℚ, 11/10 ≤ r1 → r1 ≤ 8/5 → 11/10 ≤ r2 → r2 ≤ 8/5 →
      |r1 - 27/20| < |r2 - 27/20| → gapScore r2 < gapScore r1) ∧
    (∀ r1 r2 : ℚ, 8/5 < r1 → r1 ≤ r2 → gapScore r2 ≤ gapScore r1) := by
  refine ⟨?_, ⟨?_, gapScore_le_one⟩, ?_, ?_⟩
  · intro r hr
    unfold gapScore
    rw [if_pos hr]
  · rw [gapScore_in_band (by norm_num) (by norm_num)]
    norm_num
  · intro r1 r2 h1a h1b h2a h2b hlt
    rw [gapScore_in_band h1a h1b, gapScore_in_band h2a h2b]
    linarith
  · intro r1 r2 h1 h12
    rw [gapScore_above_band h1, gapScore_above_band (by linarith)]
    exact clamp01_mono (max_le_max le_rfl (by linarith))

/-- Witness for C5 at concrete ratios: 1.0 is below the 1.1 cutoff, the
peak value 1 at 1.35 strictly exceeds the value at 1.3, and the score at
1.8 does not exceed the one at 1.7. -/
theorem gap_score_shape_witness :
    gapScore 1 = 0 ∧ gapScore (13/10) < gapScore (27/20) ∧
    gapScore (9/5) ≤ gapScore (17/10) := by
  refine ⟨gap_score_shape.1 1 (by norm_num), ?_, ?_⟩
  · exact gap_score_shape.2.2.1 (27/20) (13/10) (by norm_num) (by norm_num)
      (by norm_num) (by norm_num) (by rw [show |(27:ℚ)/20 - 27/20| = 0 by norm_num]; positivity)
  · exact gap_score_shape.2.2.2 (17/10) (9/5) (by norm_num) (by norm_num)

/-! ## C9 -/

/-- C9: for a tract with median_home_value = 260,000 scored against
price_max = 200,000, the gap ratio equals 1.3 and the exact triangular
formula gives a gap score of 0.8 (not the plateau reading of roughly 1.0),
displayed as 80.0. -/
theorem example_gap_ratio_and_score :
    gapScore (13/10) = 4/5 ∧
    (score_tract_flip_potential exampleTract 0 200000).gap_ratio = 13/10 ∧
    (score_tract_flip_potential exampleTract 0 200000).gap_score = 80 := by
  have hg : gapScore (13/10) = 4/5 := by
    rw [gapScore_in_band (by norm_num) (by norm_num)]
    rw [show |(13:ℚ)/10 - 27/20| = 1/20 by rw [abs_of_nonpos (by norm_num)]; norm_num]
    norm_num
  have hratio : ((260000:ℚ)) / ((200000:ℤ):ℚ) = 13/10 := by norm_num
  refine ⟨hg, ?_, ?_⟩ <;>
    simp only [score_tract_flip_potential, exampleTract, Option.getD] <;>
    norm_num [hratio, hg, round1, round2, round_eq]

/-! ## C8 -/

/-- C8: the population-weighted average is insensitive to the order of the
input list, degenerates to the single tract's value for a one-tract group
(the tract's value being known and its population positive), and the
two-tract example (populations 1000 and 3000, scores 80 and 40) aggregates
to exactly 50. -/
theorem pop_weighted_avg_algebra :
    (∀ l1 l2 : List (Option ℚ × ℤ), l1.Perm l2 →
      pop_weighted_avg l1 = pop_weighted_avg l2) ∧
    (∀ (v : ℚ) (w : ℤ), 0 < w → pop_weighted_avg [(some v, w)] = some v) ∧
    pop_weighted_avg [(some 80, 1000), (some 40, 3000)] = some 50 := by
  refine ⟨?_, ?_, by norm_num [pop_weighted_avg]⟩
  · intro l1 l2 h
    unfold pop_weighted_avg
    have hnum := (h.map (fun p : Option ℚ × ℤ =>
      match p.1 with | none => (0 : ℚ) | some v => v * ((p.2 : ℤ) : ℚ))).sum_eq
    have hden := (h.map (fun p : Option ℚ × ℤ =>
      match p.1 with | none => (0 : ℤ) | some _ => p.2)).sum_eq
    simp only [hnum, hden]
  · intro v w hw
    have hw0 : ((w : ℤ) : ℚ) ≠ 0 := by exact_mod_cast hw.ne'
    unfold pop_weighted_avg
    simp only [List.map_cons, List.map_nil, List.sum_cons, List.sum_nil, add_zero]
    rw [if_neg hw.ne']
    rw [mul_div_assoc, div_self hw0, mul_one]

/-- Witness for C8: order-insensitivity applied to the swapped two-tract
example, and singleton degeneracy at value 7, population 2. -/
theorem pop_weighted_avg_algebra_witness :
    pop_weighted_avg [(some 80, 1000), (some 40, 3000)] =
      pop_weighted_avg [(some 40, 3000), (some 80, 1000)] ∧
    pop_weighted_avg [(some 7, 2)] = some 7 := by
  constructor
  · exact pop_weighted_avg_algebra.1 _ _ (List.Perm.swap _ _ _)
  · exact pop_weighted_avg_algebra.2.1 7 2 (by norm_num)

/-! ## C2 -/

lemma sum_eq_knownNum (values : List (Option ℚ × ℤ)) :
    (values.map (fun p => match p.1 with
      | none => (0 : ℚ) | some v => v * ((p.2 : ℤ) : ℚ))).sum = knownNum values := by
  induction values with
  | nil => rfl
  | cons p rest ih =>
    obtain ⟨ov, w⟩ := p
    cases ov with
    | none =>
      simpa [knownNum, knownPairs, List.filterMap_cons] using ih
    | some v =>
      simp only [knownNum, knownPairs, List.filterMap_cons] at ih ⊢
      simp [ih]

lemma sum_eq_knownDen (values : List (Option ℚ × ℤ)) :
    (values.map (fun p => match p.1 with
      | none => (0 : ℤ) | some _ => p.2)).sum = knownDen values := by
  induction values with
  | nil => rfl
  | cons p rest ih =>
    obtain ⟨ov, w⟩ := p
    cases ov with
    | none =>
      simpa [knownDen, knownPairs, List.filterMap_cons] using ih
    | some v =>
      simp only [knownDen, knownPairs, List.filterMap_cons] at ih ⊢
      simp [ih]

/-- `pop_weighted_avg` computes exactly the spec's formula: the weighted
sum over the known subset divided by the known subset's population total,
absent when that denominator is zero. -/
lemma pop_weighted_avg_eq_formula (values : List (Option ℚ × ℤ)) :
    pop_weighted_avg values =
      if knownDen values = 0 then none
      else some (knownNum values / ((knownDen values : ℤ) : ℚ)) := by
  unfold pop_weighted_avg
  rw [sum_eq_knownNum, sum_eq_knownDen]

lemma pop_weighted_avg_none_of_all_unknown (values : List (Option ℚ × ℤ))
    (h : ∀ p ∈ values, p.1 = none) : pop_weighted_avg values = none := by
  rw [pop_weighted_avg_eq_formula]
  have hkp : knownPairs values = [] := by
    induction values with
    | nil => rfl
    | cons p rest ih =>
      have hp := h p (by simp)
      simp only [knownPairs, List.filterMap_cons, hp, Option.map_none]
      exact ih (fun q hq => h q (by simp [hq]))
  rw [if_pos (by simp [knownDen, hkp])]

lemma dom_pairs_filter (rows : List Row) :
    pop_weighted_avg ((rows.filter (fun r => r.days_on_market.isSome)).map
        (fun r => (r.days_on_market, r.total_pop.getD 0))) =
      pop_weighted_avg (metricPairs rows (fun r => r.days_on_market)) := by
  rw [pop_weighted_avg_eq_formula, pop_weighted_avg_eq_formula]
  have hkp : knownPairs ((rows.filter (fun r => r.days_on_market.isSome)).map
        (fun r => (r.days_on_market, r.total_pop.getD 0))) =
      knownPairs (metricPairs rows (fun r => r.days_on_market)) := by
    induction rows with
    | nil => rfl
    | cons r rest ih =>
      by_cases h : r.days_on_market.isSome
      · obtain ⟨d, hd⟩ := Option.isSome_iff_exists.mp h
        simp [knownPairs, metricPairs, List.filter_cons, h, hd,
          List.filterMap_cons] at ih ⊢
        exact ih
      · have hd : r.days_on_market = none := Option.not_isSome_iff_eq_none.mp h
        simp [knownPairs, metricPairs, List.filter_cons, h, hd,
          List.filterMap_cons] at ih ⊢
        exact ih
  unfold knownNum knownDen
  rw [hkp]

lemma dom_branch (rows : List Row) :
    (let dom_values := (rows.filter (fun r => r.days_on_market.isSome)).map
      (fun r => (r.days_on_market, r.total_pop.getD 0))
     if dom_values.isEmpty then none else pop_weighted_avg dom_values) =
      pop_weighted_avg (metricPairs rows (fun r => r.days_on_market)) := by
  simp only
  split
  · rename_i hempty
    rw [eq_comm]
    apply pop_weighted_avg_none_of_all_unknown
    intro p hp
    simp only [metricPairs, List.mem_map] at hp
    obtain ⟨r, hr, hpr⟩ := hp
    have hnone : r.days_on_market = none := by
      by_contra hne
      have hsome : r.days_on_market.isSome := Option.ne_none_iff_isSome.mp hne
      have : r ∈ rows.filter (fun r => r.days_on_market.isSome) :=
        List.mem_filter.mpr ⟨hr, hsome⟩
      rw [List.isEmpty_iff] at hempty
      have : (r.days_on_market, r.total_pop.getD 0) ∈
          (rows.filter (fun r => r.days_on_market.isSome)).map
            (fun r => (r.days_on_market, r.total_pop.getD 0)) :=
        List.mem_map_of_mem _ this
      simp [hempty] at this
    rw [← hpr, hnone]
  · exact dom_pairs_filter rows

/-- C2 (amended): each aggregated metric of `aggregate_group` equals the
population-weighted mean `Σ(value_i × population_i) / Σ(population_i)`
computed over exactly the member tracts whose value for that metric is
known (each contributing tract weighted by its own population), carried to
the output with display rounding (one decimal; two for the gap ratio;
integer truncation for days-on-market); median home value, median income,
vacancy, gap ratio and days-on-market are absent — not zero — when no
member tract has a known value (in particular a group in which no tract
reports days-on-market yields an absent days_on_market field), while the
weighted score field instead defaults to 0.0 in that case. -/
theorem aggregate_group_population_weighted (rows : List Row) :
    ((aggregate_group rows).median_home_value =
      (pop_weighted_avg (metricPairs rows (fun r => r.median_home_value))).map round1) ∧
    ((aggregate_group rows).median_income =
      (pop_weighted_avg (metricPairs rows (fun r => r.median_income))).map round1) ∧
    ((aggregate_group rows).vacancy_pct =
      (pop_weighted_avg (metricPairs rows (fun r => r.vacancy_pct))).map round1) ∧
    ((aggregate_group rows).gap_ratio =
      (pop_weighted_avg (metricPairs rows (fun r => r.gap_ratio))).map round2) ∧
    ((aggregate_group rows).days_on_market =
      (pop_weighted_avg (metricPairs rows (fun r => r.days_on_market))).map pyInt) ∧
    ((aggregate_group rows).score =
      ((pop_weighted_avg (metricPairs rows (fun r => r.score))).map round1).getD 0) ∧
    (∀ values : List (Option ℚ × ℤ),
      pop_weighted_avg values =
        if knownDen values = 0 then none
        else some (knownNum values / ((knownDen values : ℤ) : ℚ))) ∧
    (∀ values : List (Option ℚ × ℤ), (∀ p ∈ values, p.1 = none) →
      pop_weighted_avg values = none) := by
  refine ⟨rfl, rfl, rfl, rfl, ?_, ?_, pop_weighted_avg_eq_formula,
    pop_weighted_avg_none_of_all_unknown⟩
  · have h := dom_branch rows
    simp only at h
    show (if ((rows.filter (fun r => r.days_on_market.isSome)).map
        (fun r => (r.days_on_market, r.total_pop.getD 0))).isEmpty then none
      else pop_weighted_avg ((rows.filter (fun r => r.days_on_market.isSome)).map
        (fun r => (r.days_on_market, r.total_pop.getD 0)))).map pyInt =
      (pop_weighted_avg (metricPairs rows (fun r => r.days_on_market))).map pyInt
    rw [h]
  · show (match pop_weighted_avg (metricPairs rows (fun r => r.score)) with
      | none => (0 : ℚ) | some s => round1 s) =
      ((pop_weighted_avg (metricPairs rows (fun r => r.score))).map round1).getD 0
    cases pop_weighted_avg (metricPairs rows (fun r => r.score)) <;> rfl

/-- Witness for C2's quantified conjuncts at a concrete input: the formula
and the all-unknown absence at a singleton list. -/
theorem aggregate_group_population_weighted_witness :
    pop_weighted_avg [((some 3 : Option ℚ), (2 : ℤ))] =
      (if knownDen [((some 3 : Option ℚ), (2 : ℤ))] = 0 then none
       else some (knownNum [((some 3 : Option ℚ), (2 : ℤ))] /
         ((knownDen [((some 3 : Option ℚ), (2 : ℤ))] : ℤ) : ℚ))) ∧
    pop_weighted_avg [((none : Option ℚ), (5 : ℤ))] = none := by
  constructor
  · exact (aggregate_group_population_weighted []).2.2.2.2.2.2.1 _
  · exact (aggregate_group_population_weighted []).2.2.2.2.2.2.2 _
      (by intro p hp; simp at hp; rw [hp])

/-- Counterexample to C2 as stated: for a one-tract group whose member has
population 1200 but no known score, the weighted score is absent
(denominator zero), yet `aggregate_group` emits `0.0` for the `score`
field rather than an absent value. -/
theorem aggregate_score_defaults_to_zero :
    pop_weighted_avg [((none : Option ℚ), (1200 : ℤ))] = none ∧
    (aggregate_group [rowNoScore]).score = 0 := by
  constructor
  · exact pop_weighted_avg_none_of_all_unknown _ (by intro p hp; simp at hp; rw [hp])
  · rfl

/-! ## C3 -/

lemma cacheLookup_insert (c : CensusCache) (k : String)
    (d : List (List String)) (t : ℤ) :
    cacheLookup (cache_census_data c k d t) k = some ⟨d, t⟩ := by
  unfold cache_census_data
  simp [cacheLookup]

lemma cacheLookup_erase (c : CensusCache) (k : String) :
    cacheLookup (cacheErase c k) k = none := by
  induction c with
  | nil => rfl
  | cons p rest ih =>
    unfold cacheErase at ih ⊢
    by_cases h : p.1 = k
    · rw [List.filter_cons, if_neg (by simp [h])]
      exact ih
    · rw [List.filter_cons, if_pos (by simp [h])]
      unfold cacheLookup
      rw [if_neg h]
      exact ih

/-- C3: a census-cache value stored by `cache_census_data` and read by
`get_cached_census_data` before its TTL has elapsed is returned unchanged;
a read after the entry's age exceeds the TTL deletes the entry and returns
absence; a read never returns data whose age at lookup time exceeds the
TTL; and a set fully replaces any previous entry under the key. -/
theorem census_cache_ttl (c : CensusCache) (k : String)
    (d : List (List String)) (t tg : ℤ) :
    (tg - t ≤ CACHE_DURATION_SECONDS →
      (get_cached_census_data (cache_census_data c k d t) k tg).1 = some d) ∧
    (tg - t > CACHE_DURATION_SECONDS →
      (get_cached_census_data (cache_census_data c k d t) k tg).1 = none ∧
      cacheLookup (get_cached_census_data (cache_census_data c k d t) k tg).2 k = none) ∧
    (∀ d0, (get_cached_census_data c k tg).1 = some d0 →
      ∃ e, cacheLookup c k = some e ∧ e.data = d0 ∧
        tg - e.cached_at ≤ CACHE_DURATION_SECONDS) ∧
    cacheLookup (cache_census_data c k d t) k = some ⟨d, t⟩ := by
  refine ⟨?_, ?_, ?_, cacheLookup_insert c k d t⟩
  · intro h
    unfold get_cached_census_data
    rw [cacheLookup_insert]
    simp only
    rw [if_neg (not_lt.mpr h)]
  · intro h
    unfold get_cached_census_data
    rw [cacheLookup_insert]
    simp only
    rw [if_pos h]
    exact ⟨rfl, cacheLookup_erase _ k⟩
  · intro d0 h
    unfold get_cached_census_data at h
    cases hl : cacheLookup c k with
    | none => rw [hl] at h; simp at h
    | some e =>
      rw [hl] at h
      simp only at h
      by_cases hexp : tg - e.cached_at > CACHE_DURATION_SECONDS
      · rw [if_pos hexp] at h
        simp at h
      · rw [if_neg hexp] at h
        simp only [Option.some.injEq] at h
        exact ⟨e, rfl, h, not_lt.mp hexp⟩

/-- Witness for C3: a dataset cached at time 0 is returned at lookup time
86400 (exactly the 24-hour TTL) and reported absent at 86401. -/
theorem census_cache_ttl_witness :
    (get_cached_census_data
      (cache_census_data [] "097" [["h"], ["r"]] 0) "097" 86400).1 = some [["h"], ["r"]] ∧
    (get_cached_census_data
      (cache_census_data [] "097" [["h"], ["r"]] 0) "097" 86401).1 = none := by
  constructor
  · exact (census_cache_ttl [] "097" [["h"], ["r"]] 0 86400).1
      (by norm_num [CACHE_DURATION_SECONDS])
  · exact ((census_cache_ttl [] "097" [["h"], ["r"]] 0 86401).2.1
      (by norm_num [CACHE_DURATION_SECONDS])).1

/-! ## C4 -/

lemma ca_ok (oracle : ℕ → FetchOutcome) (a rem : ℕ) (d : List (List String))
    (ho : oracle a = .ok d) :
    census_attempts oracle a (rem + 1) =
      if d.length < 2 then (none, 1) else (some d, 1) := by
  conv_lhs => rw [census_attempts]
  rw [ho]

lemma ca_fail_succ (oracle : ℕ → FetchOutcome) (a rem : ℕ)
    (h : (oracle a).isFailure = true) (hrem : 0 < rem) :
    census_attempts oracle a (rem + 1) =
      ((census_attempts oracle (a + 1) rem).1,
        (census_attempts oracle (a + 1) rem).2 + 1) := by
  conv_lhs => rw [census_attempts]
  cases ho : oracle a with
  | ok d => rw [ho] at h; simp [FetchOutcome.isFailure] at h
  | http503 => rw [if_pos hrem]
  | httpStatusError => rw [if_pos hrem]
  | timeout => rw [if_pos hrem]
  | netError => rw [if_pos hrem]

lemma ca_fail_last (oracle : ℕ → FetchOutcome) (a : ℕ)
    (h : (oracle a).isFailure = true) :
    census_attempts oracle a 1 = (none, 1) := by
  have h1 : (1 : ℕ) = 0 + 1 := rfl
  rw [h1]
  conv_lhs => rw [census_attempts]
  cases ho : oracle a with
  | ok d => rw [ho] at h; simp [FetchOutcome.isFailure] at h
  | http503 => rw [if_neg (by norm_num)]
  | httpStatusError => rw [if_neg (by norm_num)]
  | timeout => rw [if_neg (by norm_num)]
  | netError => rw [if_neg (by norm_num)]

lemma ca3_first_ok (oracle : ℕ → FetchOutcome) (k : ℕ) (d : List (List String))
    (hk : k < 3) (hf : ∀ i, i < k → (oracle i).isFailure = true)
    (ho : oracle k = .ok d) :
    census_attempts oracle 0 3 = ((if d.length < 2 then none else some d), k + 1) := by
  have h3 : census_attempts oracle 0 3 = census_attempts oracle 0 (2 + 1) := rfl
  have h2 : census_attempts oracle 1 2 = census_attempts oracle 1 (1 + 1) := rfl
  have h1 : census_attempts oracle 2 1 = census_attempts oracle 2 (0 + 1) := rfl
  interval_cases k
  · rw [h3, ca_ok oracle 0 2 d ho]
    by_cases hc : d.length < 2 <;> simp [hc]
  · rw [h3, ca_fail_succ oracle 0 2 (hf 0 (by norm_num)) (by norm_num),
      h2, ca_ok oracle 1 1 d ho]
    by_cases hc : d.length < 2 <;> simp [hc]
  · rw [h3, ca_fail_succ oracle 0 2 (hf 0 (by norm_num)) (by norm_num),
      h2, ca_fail_succ oracle 1 1 (hf 1 (by norm_num)) (by norm_num),
      h1, ca_ok oracle 2 0 d ho]
    by_cases hc : d.length < 2 <;> simp [hc]

lemma ca3_all_fail (oracle : ℕ → FetchOutcome)
    (hf : ∀ i, i < 3 → (oracle i).isFailure = true) :
    census_attempts oracle 0 3 = (none, 3) := by
  have h3 : census_attempts oracle 0 3 = census_attempts oracle 0 (2 + 1) := rfl
  have h2 : census_attempts oracle 1 2 = census_attempts oracle 1 (1 + 1) := rfl
  rw [h3, ca_fail_succ oracle 0 2 (hf 0 (by norm_num)) (by norm_num),
    h2, ca_fail_succ oracle 1 1 (hf 1 (by norm_num)) (by norm_num),
    ca_fail_last oracle 2 (hf 2 (by norm_num))]

/-- C4: for the retrying census fetcher with a cold cache — if failures
(503/timeout/network error) occupy the first `k` attempts and attempt `k`
(within the 3-attempt cap) succeeds with at least 2 rows, the returned
dataset is the successful one, it is cached, and a repeat call within the
TTL window answers from the cache with zero network attempts; if every
attempt fails, the result is absence (a returned `none`, never an
exception) after exactly 3 attempts with the cache untouched; and a
success with fewer than 2 rows yields absence immediately after that
attempt, with no retry and nothing cached. -/
theorem retry_fetch_behavior (oracle : ℕ → FetchOutcome) (c : CensusCache)
    (fips : String) (d : List (List String)) (now now2 : ℤ) (k : ℕ) :
    (cacheLookup c fips = none → k < 3 →
      (∀ i, i < k → (oracle i).isFailure = true) → oracle k = .ok d →
      2 ≤ d.length →
      fetch_census_data_with_retry oracle c fips now 3 =
        (some d, cache_census_data c fips d now, k + 1) ∧
      (now2 - now ≤ CACHE_DURATION_SECONDS →
        fetch_census_data_with_retry oracle
            (cache_census_data c fips d now) fips now2 3 =
          (some d, cache_census_data c fips d now, 0))) ∧
    (cacheLookup c fips = none → (∀ i, i < 3 → (oracle i).isFailure = true) →
      fetch_census_data_with_retry oracle c fips now 3 = (none, c, 3)) ∧
    (cacheLookup c fips = none → k < 3 →
      (∀ i, i < k → (oracle i).isFailure = true) → oracle k = .ok d →
      d.length < 2 →
      fetch_census_data_with_retry oracle c fips now 3 = (none, c, k + 1)) := by
  refine ⟨?_, ?_, ?_⟩
  · intro hc hk hf ho hlen
    have hca := ca3_first_ok oracle k d hk hf ho
    rw [if_neg (not_lt.mpr hlen)] at hca
    constructor
    · unfold fetch_census_data_with_retry get_cached_census_data
      rw [hc]
      simp only
      rw [hca]
    · intro hfresh
      unfold fetch_census_data_with_retry get_cached_census_data
      rw [cacheLookup_insert]
      simp only
      rw [if_neg (not_lt.mpr hfresh)]
  · intro hc hf
    have hca := ca3_all_fail oracle hf
    unfold fetch_census_data_with_retry get_cached_census_data
    rw [hc]
    simp only
    rw [hca]
  · intro hc hk hf ho hlen
    have hca := ca3_first_ok oracle k d hk hf ho
    rw [if_pos hlen] at hca
    unfold fetch_census_data_with_retry get_cached_census_data
    rw [hc]
    simp only
    rw [hca]

/-- Witness for C4: with a cold cache, a 503 followed by a two-row success
returns that dataset after 2 attempts and caches it, after which a repeat
call answers from the cache with 0 attempts; all-503 gives absence after
3 attempts; a header-only success gives absence after 1 attempt. -/
theorem retry_fetch_behavior_witness :
    fetch_census_data_with_retry oracle503ThenOk [] "097" 0 3 =
      (some [["NAME"], ["tract1"]],
        cache_census_data [] "097" [["NAME"], ["tract1"]] 0, 2) ∧
    fetch_census_data_with_retry oracle503ThenOk
        (cache_census_data [] "097" [["NAME"], ["tract1"]] 0) "097" 3600 3 =
      (some [["NAME"], ["tract1"]],
        cache_census_data [] "097" [["NAME"], ["tract1"]] 0, 0) ∧
    fetch_census_data_with_retry oracleAll503 [] "097" 0 3 = (none, [], 3) ∧
    fetch_census_data_with_retry oracleHeaderOnly [] "097" 0 3 = (none, [], 1) := by
  have h1 := (retry_fetch_behavior oracle503ThenOk [] "097"
    [["NAME"], ["tract1"]] 0 3600 1).1 rfl (by norm_num)
    (by intro i hi; interval_cases i; rfl) rfl (by norm_num)
  refine ⟨h1.1, h1.2 (by norm_num [CACHE_DURATION_SECONDS]), ?_, ?_⟩
  · exact (retry_fetch_behavior oracleAll503 [] "097" [] 0 0 0).2.1 rfl
      (by intro i hi; rfl)
  · exact (retry_fetch_behavior oracleHeaderOnly [] "097" [["NAME"]] 0 0 0).2.2 rfl
      (by norm_num) (by intro i hi; omega) rfl (by norm_num)

/-! ## C6 -/

lemma enrich_one_fields (cfg : Bool) (oracle : String → MarketOutcome)
    (st : EnrichState) (n : NeighborhoodCard) :
    ((enrich_one cfg oracle st n).1.score = n.score) ∧
    ((enrich_one cfg oracle st n).1.gap_ratio = n.gap_ratio) ∧
    ((enrich_one cfg oracle st n).1.vacancy_pct = n.vacancy_pct) ∧
    ((enrich_one cfg oracle st n).1.median_home_value = n.median_home_value) ∧
    ((enrich_one cfg oracle st n).1.median_income = n.median_income) ∧
    ((enrich_one cfg oracle st n).2.rate_limit_hit = st.rate_limit_hit) := by
  unfold enrich_one
  cases resolveZip n with
  | none => exact ⟨rfl, rfl, rfl, rfl, rfl, rfl⟩
  | some z =>
    simp only
    cases (get_market_stats_for_zip cfg oracle st.cache z).1 with
    | none => exact ⟨rfl, rfl, rfl, rfl, rfl, rfl⟩
    | some d => exact ⟨rfl, rfl, rfl, rfl, rfl, rfl⟩

lemma enrich_loop_fields (cfg : Bool) (oracle : String → MarketOutcome)
    (l : List NeighborhoodCard) : ∀ st : EnrichState,
    ((enrich_loop cfg oracle st l).2.rate_limit_hit = st.rate_limit_hit) ∧
    ((enrich_loop cfg oracle st l).1.map (fun c => c.score) =
      l.map (fun c => c.score)) ∧
    ((enrich_loop cfg oracle st l).1.map (fun c => c.gap_ratio) =
      l.map (fun c => c.gap_ratio)) ∧
    ((enrich_loop cfg oracle st l).1.map (fun c => c.vacancy_pct) =
      l.map (fun c => c.vacancy_pct)) ∧
    ((enrich_loop cfg oracle st l).1.map (fun c => c.median_home_value) =
      l.map (fun c => c.median_home_value)) ∧
    ((enrich_loop cfg oracle st l).1.map (fun c => c.median_income) =
      l.map (fun c => c.median_income)) := by
  induction l with
  | nil => intro st; exact ⟨rfl, rfl, rfl, rfl, rfl, rfl⟩
  | cons n rest ih =>
    intro st
    unfold enrich_loop
    simp only
    obtain ⟨h1, h2, h3, h4, h5, h6⟩ := enrich_one_fields cfg oracle st n
    obtain ⟨g1, g2, g3, g4, g5, g6⟩ := ih (enrich_one cfg oracle st n).2
    refine ⟨?_, ?_, ?_, ?_, ?_, ?_⟩ <;>
      simp [List.map_cons, g1, g2, g3, g4, g5, g6, h1, h2, h3, h4, h5, h6]

lemma market_stats_429 (oracle : String → MarketOutcome) (z : String)
    (dc : DomCache) (ho : oracle z = .status429) (hz : z ≠ "")
    (hdc : domLookup dc z = none) :
    get_market_stats_for_zip true oracle dc z = (none, domInsert dc z none, true) := by
  unfold get_market_stats_for_zip
  rw [if_neg hz, hdc]
  simp only [Bool.not_true]
  rw [if_neg (by simp), ho]

/-- C6 (amended): a rate-limiting 429 from the market-velocity upstream
during enrichment is swallowed inside the per-ZIP lookup, which memoizes
"no data" for that ZIP and returns absence; the enrichment loop does not
stop — it continues with the remaining candidates (shown concretely: after
a 429 on the top card's ZIP the next card's ZIP is still called and
enriched); no warning is ever appended to the errors list (the
`rate_limit_hit` branch is unreachable, the flag stays false); the request
does not fail, and every already-computed score and aggregate metric is
returned unchanged, the affected entries unenriched. -/
theorem enrichment_rate_limit_handling (cfg : Bool)
    (oracle : String → MarketOutcome) (include_market_data : Bool) (mml : ℕ)
    (cache : DomCache) (cards : List NeighborhoodCard) (errors : List String) :
    ((market_enrichment cfg oracle include_market_data mml cache cards errors).errors
      = errors) ∧
    ((market_enrichment cfg oracle include_market_data mml cache cards errors).rate_limit_hit
      = false) ∧
    ((market_enrichment cfg oracle include_market_data mml cache cards errors).neighborhoods.map
        (fun c => c.score) = cards.map (fun c => c.score)) ∧
    ((market_enrichment cfg oracle include_market_data mml cache cards errors).neighborhoods.map
        (fun c => c.gap_ratio) = cards.map (fun c => c.gap_ratio)) ∧
    ((market_enrichment cfg oracle include_market_data mml cache cards errors).neighborhoods.map
        (fun c => c.vacancy_pct) = cards.map (fun c => c.vacancy_pct)) ∧
    (∀ z dc, oracle z = .status429 → z ≠ "" → domLookup dc z = none →
      get_market_stats_for_zip true oracle dc z = (none, domInsert dc z none, true)) ∧
    ((market_enrichment true oracle429ThenOk true 10 [] [cardA, cardB] []).network_calls
      = ["46201", "46202"] ∧
     (market_enrichment true oracle429ThenOk true 10 [] [cardA, cardB] []).neighborhoods.map
        (fun c => c.days_on_market) = [none, some 25]) := by
  by_cases hguard : (include_market_data && cfg && !cards.isEmpty) = true
  · obtain ⟨g1, g2, g3, g4, g5, g6⟩ := enrich_loop_fields cfg oracle
      (cards.take (min (min mml cards.length) 15)) ⟨cache, 0, false, []⟩
    have hopen : market_enrichment cfg oracle include_market_data mml cache cards errors =
        { neighborhoods := (enrich_loop cfg oracle ⟨cache, 0, false, []⟩
            (cards.take (min (min mml cards.length) 15))).1 ++
              cards.drop (min (min mml cards.length) 15)
          dom_cache := (enrich_loop cfg oracle ⟨cache, 0, false, []⟩
            (cards.take (min (min mml cards.length) 15))).2.cache
          errors := if (enrich_loop cfg oracle ⟨cache, 0, false, []⟩
              (cards.take (min (min mml cards.length) 15))).2.rate_limit_hit &&
              (enrich_loop cfg oracle ⟨cache, 0, false, []⟩
                (cards.take (min (min mml cards.length) 15))).2.looked == 0 then
              errors ++ ["RapidAPI rate limit exceeded. Market data unavailable."]
            else errors
          rate_limit_hit := (enrich_loop cfg oracle ⟨cache, 0, false, []⟩
            (cards.take (min (min mml cards.length) 15))).2.rate_limit_hit
          network_calls := (enrich_loop cfg oracle ⟨cache, 0, false, []⟩
            (cards.take (min (min mml cards.length) 15))).2.calls
          looked := (enrich_loop cfg oracle ⟨cache, 0, false, []⟩
            (cards.take (min (min mml cards.length) 15))).2.looked } := by
      unfold market_enrichment
      rw [if_pos hguard]
    rw [hopen]
    refine ⟨?_, g1, ?_, ?_, ?_, market_stats_429 oracle, ⟨by decide, by decide⟩⟩
    · simp only [g1, Bool.false_and, Bool.false_eq_true, if_false]
    · rw [List.map_append, g2, ← List.map_append, List.take_append_drop]
    · rw [List.map_append, g3, ← List.map_append, List.take_append_drop]
    · rw [List.map_append, g4, ← List.map_append, List.take_append_drop]
  · have hopen : market_enrichment cfg oracle include_market_data mml cache cards errors =
        { neighborhoods := cards, dom_cache := cache, errors := errors
          rate_limit_hit := false, network_calls := [], looked := 0 } := by
      unfold market_enrichment
      rw [if_neg hguard]
    rw [hopen]
    exact ⟨rfl, rfl, rfl, rfl, rfl, market_stats_429 oracle, ⟨by decide, by decide⟩⟩

/-- Witness for C6's quantified 429 conjunct at a concrete ZIP with a cold
memo. -/
theorem enrichment_rate_limit_handling_witness :
    get_market_stats_for_zip true oracle429ThenOk [] "46201" =
      (none, domInsert [] "46201" none, true) := by
  exact (enrichment_rate_limit_handling true oracle429ThenOk true 0 [] [] []).2.2.2.2.2.1
    "46201" [] rfl (by decide) rfl

/-- Counterexample to C6 as stated: with a 429 on the top candidate's ZIP,
the pipeline does not stop further enrichment attempts (a network call is
still made for the next candidate, which gets enriched), and no soft
warning is surfaced in the response's errors list. -/
theorem enrichment_does_not_stop_or_warn_on_429 :
    (market_enrichment true oracle429ThenOk true 10 [] [cardA, cardB] []).network_calls
      = ["46201", "46202"] ∧
    (market_enrichment true oracle429ThenOk true 10 [] [cardA, cardB] []).errors = [] ∧
    (market_enrichment true oracle429ThenOk true 10 [] [cardA, cardB] []).looked = 1 := by
  exact ⟨by decide, by decide, by decide⟩

/-! ## C7 -/

/-- C7 evaluated on the code: there is no result-count threshold above
which the market-data switch is auto-disabled.  `top_n` is clamped to at
most 50 before the `top_n > 50` guard runs, so the guard is dead code: for
a request asking for 100 results with market data on, the switch stays on,
and in general the effective switch always equals the requested one. -/
theorem market_switch_never_auto_disabled :
    parse_top_n 100 = 50 ∧
    effective_include_market_data 100 true = true ∧
    (∀ (raw : ℤ) (requested : Bool),
      effective_include_market_data raw requested = requested) := by
  refine ⟨rfl, rfl, ?_⟩
  intro raw requested
  unfold effective_include_market_data
  have h : parse_top_n raw ≤ 50 :=
    max_le (by norm_num) (min_le_right raw 50)
  rw [if_neg (not_lt.mpr h)]

/-! ## C10 -/

lemma domLookup_filter_ne (c : DomCache) (z z' : String) (hne : z' ≠ z) :
    domLookup (c.filter (fun p => p.1 != z)) z' = domLookup c z' := by
  induction c with
  | nil => rfl
  | cons p rest ih =>
    obtain ⟨a, b⟩ := p
    by_cases hp : a = z
    · rw [List.filter_cons, if_neg (by simp [hp]), ih]
      show domLookup rest z' = if a = z' then some b else domLookup rest z'
      rw [if_neg (by rw [hp]; exact fun hh => hne hh.symm)]
    · rw [List.filter_cons, if_pos (by simp [hp])]
      show (if a = z' then some b
          else domLookup (rest.filter (fun p => p.1 != z)) z') =
        if a = z' then some b else domLookup rest z'
      rw [ih]

lemma domLookup_insert_self (c : DomCache) (z : String) (v : Option ℤ) :
    domLookup (domInsert c z v) z = some v := by
  unfold domInsert domLookup
  rw [if_pos rfl]

lemma domLookup_insert_other (c : DomCache) (z z' : String) (v : Option ℤ)
    (hne : z' ≠ z) : domLookup (domInsert c z v) z' = domLookup c z' := by
  show (if z = z' then some v
      else domLookup (c.filter (fun p => p.1 != z)) z') = domLookup c z'
  rw [if_neg (fun hh => hne hh.symm), domLookup_filter_ne c z z' hne]

lemma gms_hit (cfg : Bool) (oracle : String → MarketOutcome) (cache : DomCache)
    (z : String) (v : Option ℤ) (hz : z ≠ "") (hv : domLookup cache z = some v) :
    get_market_stats_for_zip cfg oracle cache z = (v, cache, false) := by
  unfold get_market_stats_for_zip
  rw [if_neg hz, hv]

lemma gms_memoizes (cfg : Bool) (oracle : String → MarketOutcome)
    (cache : DomCache) (z : String) (hz : z ≠ "") :
    domLookup (get_market_stats_for_zip cfg oracle cache z).2.1 z =
      some (get_market_stats_for_zip cfg oracle cache z).1 := by
  unfold get_market_stats_for_zip
  rw [if_neg hz]
  cases hl : domLookup cache z with
  | some w => exact hl
  | none =>
    simp only
    split
    · exact domLookup_insert_self _ _ _
    · split <;>
        first
          | exact domLookup_insert_self _ _ _
          | (split <;> exact domLookup_insert_self _ _ _)

lemma gms_preserves (cfg : Bool) (oracle : String → MarketOutcome)
    (cache : DomCache) (z z' : String) (w : Option ℤ)
    (hw : domLookup cache z' = some w) :
    domLookup (get_market_stats_for_zip cfg oracle cache z).2.1 z' = some w := by
  unfold get_market_stats_for_zip
  by_cases hz : z = ""
  · rw [if_pos hz]; exact hw
  · rw [if_neg hz]
    cases hl : domLookup cache z with
    | some v => exact hw
    | none =>
      have hne : z' ≠ z := by
        intro he
        rw [he, hl] at hw
        cases hw
      simp only
      split
      · rw [domLookup_insert_other _ _ _ _ hne]; exact hw
      · split <;>
          first
            | (rw [domLookup_insert_other _ _ _ _ hne]; exact hw)
            | (split <;> rw [domLookup_insert_other _ _ _ _ hne] <;> exact hw)

lemma gms_no_key (oracle : String → MarketOutcome) (cache : DomCache)
    (z : String) (hz : z ≠ "") (hl : domLookup cache z = none) :
    get_market_stats_for_zip false oracle cache z =
      (none, domInsert cache z none, false) := by
  unfold get_market_stats_for_zip
  rw [if_neg hz, hl]
  rfl

lemma gms_404 (oracle : String → MarketOutcome) (cache : DomCache)
    (z : String) (hz : z ≠ "") (hl : domLookup cache z = none)
    (ho : oracle z = .status404) :
    get_market_stats_for_zip true oracle cache z =
      (none, domInsert cache z none, true) := by
  unfold get_market_stats_for_zip
  rw [if_neg hz, hl]
  simp only [Bool.not_true]
  rw [if_neg (by simp), ho]

lemma gms_netError (oracle : String → MarketOutcome) (cache : DomCache)
    (z : String) (hz : z ≠ "") (hl : domLookup cache z = none)
    (ho : oracle z = .netError) :
    get_market_stats_for_zip true oracle cache z =
      (none, domInsert cache z none, true) := by
  unfold get_market_stats_for_zip
  rw [if_neg hz, hl]
  simp only [Bool.not_true]
  rw [if_neg (by simp), ho]

lemma gms_empty (oracle : String → MarketOutcome) (cache : DomCache)
    (z : String) (hz : z ≠ "") (hl : domLookup cache z = none)
    (ho : oracle z = .ok []) :
    get_market_stats_for_zip true oracle cache z =
      (none, domInsert cache z none, true) := by
  unfold get_market_stats_for_zip
  rw [if_neg hz, hl]
  simp only [Bool.not_true]
  rw [if_neg (by simp), ho]
  rfl

/-- C10: the per-ZIP days-on-market memo `_dom_cache` is permanent and
failure-polluting.  A memoized ZIP is answered from the memo with no
network call and an unchanged cache; any first call on a non-empty ZIP
memoizes exactly the value it returns; with a cold memo, a missing API
key, a 404, a 429, a network exception, and an empty result set all
memoize `None`; no call ever evicts or changes an existing entry; and a
repeat call for the same ZIP returns the memoized value with no network
request. -/
theorem dom_memo_permanent (cfg : Bool) (oracle : String → MarketOutcome)
    (cache : DomCache) (z : String) (v : Option ℤ) :
    (z ≠ "" → domLookup cache z = some v →
      get_market_stats_for_zip cfg oracle cache z = (v, cache, false)) ∧
    (z ≠ "" → domLookup (get_market_stats_for_zip cfg oracle cache z).2.1 z =
      some (get_market_stats_for_zip cfg oracle cache z).1) ∧
    (z ≠ "" → domLookup cache z = none →
      get_market_stats_for_zip false oracle cache z =
        (none, domInsert cache z none, false)) ∧
    (z ≠ "" → domLookup cache z = none → oracle z = .status404 →
      get_market_stats_for_zip true oracle cache z =
        (none, domInsert cache z none, true)) ∧
    (z ≠ "" → domLookup cache z = none → oracle z = .status429 →
      get_market_stats_for_zip true oracle cache z =
        (none, domInsert cache z none, true)) ∧
    (z ≠ "" → domLookup cache z = none → oracle z = .netError →
      get_market_stats_for_zip true oracle cache z =
        (none, domInsert cache z none, true)) ∧
    (z ≠ "" → domLookup cache z = none → oracle z = .ok [] →
      get_market_stats_for_zip true oracle cache z =
        (none, domInsert cache z none, true)) ∧
    (∀ z' w, domLookup cache z' = some w →
      domLookup (get_market_stats_for_zip cfg oracle cache z).2.1 z' = some w) ∧
    (z ≠ "" →
      get_market_stats_for_zip cfg oracle
          (get_market_stats_for_zip cfg oracle cache z).2.1 z =
        ((get_market_stats_for_zip cfg oracle cache z).1,
          (get_market_stats_for_zip cfg oracle cache z).2.1, false)) := by
  refine ⟨fun hz hv => gms_hit cfg oracle cache z v hz hv,
    fun hz => gms_memoizes cfg oracle cache z hz,
    fun hz hl => gms_no_key oracle cache z hz hl,
    fun hz hl ho => gms_404 oracle cache z hz hl ho,
    fun hz hl ho => market_stats_429 oracle z cache ho hz hl,
    fun hz hl ho => gms_netError oracle cache z hz hl ho,
    fun hz hl ho => gms_empty oracle cache z hz hl ho,
    fun z' w hw => gms_preserves cfg oracle cache z z' w hw,
    fun hz => gms_hit cfg oracle _ z _ hz (gms_memoizes cfg oracle cache z hz)⟩

/-- Witness for C10: a 404 on ZIP 46033 with a cold memo stores `None` and
a repeat call answers `None` from the memo with no network request. -/
theorem dom_memo_permanent_witness :
    get_market_stats_for_zip true oracleDom404 [] "46033" =
      (none, domInsert [] "46033" none, true) ∧
    get_market_stats_for_zip true oracleDom404 (domInsert [] "46033" none) "46033" =
      (none, domInsert [] "46033" none, false) := by
  constructor
  · exact (dom_memo_permanent true oracleDom404 [] "46033" none).2.2.2.1
      (by decide) rfl rfl
  · exact (dom_memo_permanent true oracleDom404
      (domInsert [] "46033" none) "46033" none).1 (by decide) rfl
